import Mathlib

/-!
# Verification of `hl_purr_to_perps.py`

A shallow embedding of the quantization engine and migration orchestrator of
`src/hl_purr_to_perps.py`, together with theorems settling the spec's claims.

Python `Decimal` values are modelled as exact rationals (`ℚ`).  The script sets
`getcontext().prec = 28`; every arithmetic operation the claims exercise stays
well inside 28 significant digits, so exact rational arithmetic coincides with
the script's `Decimal` arithmetic on those inputs.  Strings produced by the
script (`str(...)`) are modelled by the rational value they denote, except where
a claim is about the literal string of an integer, where we model `str(int(x))`
directly.
-/

namespace HL

/-- Python `int(x)` on a `Decimal`: truncation toward zero. -/
def pyInt (x : ℚ) : ℤ :=
  if 0 ≤ x then ⌊x⌋ else ⌈x⌉

/-- Python `Decimal.__floordiv__` (`a // b`): the integer quotient truncated
toward zero (Python's `Decimal` floor division truncates, unlike `int //`). -/
def pyFloorDiv (a b : ℚ) : ℚ :=
  (pyInt (a / b) : ℚ)

/-- Embeds `round_size` (src lines 101–105).  The source returns
`str(int(sz))` when `sz_decimals == 0` and `str((sz // q) * q)` otherwise,
with `q = Decimal(8) ** (-sz_decimals)`; we model the rational value the
returned string denotes.  Note the source's step is a power of **8**, not 10. -/
def round_size (sz : ℚ) (sz_decimals : ℕ) : ℚ :=
  if sz_decimals = 0 then (pyInt sz : ℚ)
  else
    let q : ℚ := (8 : ℚ) ^ (-(sz_decimals : ℤ))
    pyFloorDiv sz q * q

/-- Python `Decimal.quantize(t, rounding=ROUND_DOWN)` where `t` is a `Decimal`
of exponent `-e`: round toward zero to `e` decimal places.  (Context-precision
overflow, which would raise `InvalidOperation`, is not modelled; no claim's
inputs reach it.) -/
def quantizeRD (x : ℚ) (e : ℕ) : ℚ :=
  (pyInt (x * 10 ^ e) : ℚ) / 10 ^ e

/-- The (negated) exponent of the Python value `Decimal(8) ** (-d)`:
`8^-d = 5^(3*d) * 10^(-3*d)` with coefficient `5^(3*d)` not divisible by 10,
so Python represents it with exponent `-(3*d)`. -/
def tickExp (d : ℕ) : ℕ := 3 * d

/-- Embeds the inline transfer quantization of `main`, duplicated verbatim in
the `sell_and_transfer` branch (src lines 246–249) and the `transfer_only`
branch (src lines 267–270): `usdc_tick = Decimal(8) ** (-wei_decimals)`;
`safe_amount = (x // usdc_tick) * usdc_tick - usdc_tick`, clamped at `0`.
Again the source's tick is a power of **8**, not 10. -/
def quantize_with_margin (x : ℚ) (wei_decimals : ℕ) : ℚ :=
  let usdc_tick : ℚ := (8 : ℚ) ^ (-(wei_decimals : ℤ))
  let safe_amount := pyFloorDiv x usdc_tick * usdc_tick - usdc_tick
  if safe_amount < 0 then 0 else safe_amount

/-- The value finally submitted on the transfer paths (src lines 250 and 271):
`str(safe_amount.quantize(usdc_tick, rounding=ROUND_DOWN))`, modelled as the
rational value of that string. -/
def transfer_amount (x : ℚ) (wei_decimals : ℕ) : ℚ :=
  quantizeRD (quantize_with_margin x wei_decimals) (tickExp wei_decimals)

/-- `x` is an exact multiple of `10^-d`. -/
def isDecimalMultiple (x : ℚ) (d : ℕ) : Prop :=
  ∃ k : ℤ, x = (k : ℚ) / 10 ^ d

/-! ## Data model (spot metadata and balances, src lines 63–98) -/

/-- One entry of `spotMeta.universe`: a tradable pair with its listed `index`
field (the code reads `u["index"]`, i.e. the listed index, not the position). -/
structure UniverseEntry where
  name : String
  index : ℕ
deriving DecidableEq

/-- One entry of `spotMeta.tokens`. -/
structure TokenEntry where
  name : String
  szDecimals : ℕ
  weiDecimals : ℕ
deriving DecidableEq

/-- The venue's spot metadata snapshot. -/
structure SpotMeta where
  «universe» : List UniverseEntry
  tokens : List TokenEntry
deriving DecidableEq

/-- One record of a `spotClearinghouseState` response. -/
structure BalanceEntry where
  coin : String
  total : ℚ
  hold : ℚ
deriving DecidableEq

/-- Embeds `find_pair_asset_id` (src lines 63–68): scan `universe` in order,
return `10000 + index` at the first name match, else raise (`RuntimeError`,
modelled as `Except.error` with the source's message). -/
def findPairAux : List UniverseEntry → String → Except String ℕ
  | [], pair_name =>
      .error ("Pair " ++ pair_name ++ " not found in spot meta 'universe'.")
  | u :: rest, pair_name =>
      if u.name = pair_name then .ok (10000 + u.index)
      else findPairAux rest pair_name

def find_pair_asset_id (meta : SpotMeta) (pair_name : String) : Except String ℕ :=
  findPairAux meta.«universe» pair_name

/-- Embeds `token_decimals` (src lines 71–76): first token whose name matches
yields `(szDecimals, weiDecimals)`, else `RuntimeError`. -/
def tokenDecAux : List TokenEntry → String → Except String (ℕ × ℕ)
  | [], token =>
      .error ("Token " ++ token ++ " not found in spot meta 'tokens'.")
  | t :: rest, token =>
      if t.name = token then .ok (t.szDecimals, t.weiDecimals)
      else tokenDecAux rest token

def token_decimals (meta : SpotMeta) (token : String) : Except String (ℕ × ℕ) :=
  tokenDecAux meta.tokens token

/-- Embeds `get_spot_balance` (src lines 90–98): `total` starts at `0`; the
first record whose `coin` matches sets it to `total - hold` and breaks. -/
def get_spot_balance : List BalanceEntry → String → ℚ
  | [], _ => 0
  | b :: rest, token =>
      if b.coin = token then b.total - b.hold
      else get_spot_balance rest token

/-! ## Orchestrator (src `main`, lines 200–292)

We model `main` from the point the venue is first contacted (line 201;
everything before it is credential/env loading with no venue interaction).
Network calls and Signing-Gateway submissions are recorded as a trace of
events; `sys.exit(msg)` is `Outcome.exit msg`, an uncaught `RuntimeError`
from the resolvers is `Outcome.raise msg`.  The SDK submission helpers
(`place_spot_ioc_sell`, `usd_class_transfer`, `withdraw3`) convert the final
quantized string via `float(...)` before handing it to the SDK; the event
records the exact quantized value the orchestrator produced. -/

inductive Mode
  | sell_and_transfer
  | transfer_only
  | withdraw
deriving DecidableEq

/-- The parsed command-line arguments (src lines 146–179). -/
structure Args where
  mode : Mode
  purr_amount : Option ℚ
  usdc_amount : Option ℚ
  dest : Option String
  slippage_bps : ℤ

/-- The token/pair configuration read from the environment (src lines 203–205). -/
structure Env where
  pair_name : String
  base_token : String
  quote_token : String

/-- The external world: the metadata response and the balance responses
returned by the first and (in `sell_and_transfer` mode) second
`spotClearinghouseState` queries. -/
structure Venue where
  meta : SpotMeta
  balances1 : List BalanceEntry
  balances2 : List BalanceEntry

/-- An observable interaction with the venue or the Signing Gateway. -/
inductive Event
  | fetch_meta
  | fetch_balances (token : String)
  | submit_order (pair : String) (sz : ℚ) (slippage_bps : ℤ)
  | submit_transfer (amount : ℚ)
  | submit_withdraw (amount : ℚ) (dest : String)
  | sleep_settle
deriving DecidableEq

inductive Outcome
  | ok
  | exit (msg : String)
  | raise (msg : String)
deriving DecidableEq

/-- Embeds `main` (src lines 200–292): metadata fetch, token/pair resolution,
then the mode dispatch.  Python's `if not args.dest` is truthiness: `None` and
`""` both fail the check, modelled via `getD ""`. -/
def runMain (args : Args) (env : Env) (venue : Venue) : List Event × Outcome :=
  let meta := venue.meta
  let ev0 : List Event := [.fetch_meta]
  match token_decimals meta env.base_token with
  | .error m => (ev0, .raise m)
  | .ok (purr_sz_decimals, _) =>
  match token_decimals meta env.quote_token with
  | .error m => (ev0, .raise m)
  | .ok (_, usdc_wei_decimals) =>
  match find_pair_asset_id meta env.pair_name with
  | .error m => (ev0, .raise m)
  | .ok _pair_asset_id =>
  match args.mode with
  | .sell_and_transfer =>
      let ev1 := ev0 ++ [.fetch_balances env.base_token]
      let purr_free := get_spot_balance venue.balances1 env.base_token
      if purr_free ≤ 0 then (ev1, .exit "No PURR available on Spot.")
      else
        let purr_to_sell :=
          match args.purr_amount with
          | none => purr_free
          | some a => min a purr_free
        let purr_size := round_size purr_to_sell purr_sz_decimals
        if purr_size ≤ 0 then
          (ev1, .exit "Computed PURR size <= 0 after rounding. Aborting.")
        else
          let ev2 := ev1 ++ [.submit_order env.pair_name purr_size args.slippage_bps,
                             .sleep_settle, .fetch_balances env.quote_token]
          let usdc_free := get_spot_balance venue.balances2 env.quote_token
          if usdc_free ≤ 0 then
            (ev2, .exit "No USDC on Spot after sell (order may not have filled).")
          else
            let usdc_to_xfer :=
              match args.usdc_amount with
              | none => usdc_free
              | some a => min a usdc_free
            (ev2 ++ [.submit_transfer (transfer_amount usdc_to_xfer usdc_wei_decimals)], .ok)
  | .transfer_only =>
      let ev1 := ev0 ++ [.fetch_balances env.quote_token]
      let usdc_free := get_spot_balance venue.balances1 env.quote_token
      if usdc_free ≤ 0 then (ev1, .exit "No USDC available on Spot.")
      else
        let usdc_to_xfer :=
          match args.usdc_amount with
          | none => usdc_free
          | some a => min a usdc_free
        (ev1 ++ [.submit_transfer (transfer_amount usdc_to_xfer usdc_wei_decimals)], .ok)
  | .withdraw =>
      if args.dest.getD "" = "" then
        (ev0, .exit "--dest is required for withdraw mode (Arbitrum address)")
      else
        match args.usdc_amount with
        | none => (ev0, .exit "--usdc-amount is required for withdraw mode")
        | some amt =>
            (ev0 ++ [.submit_withdraw (quantizeRD amt 8) (args.dest.getD "")], .ok)

/-! ## Concrete scenario fixtures shared by several theorems -/

/-- Metadata snapshot used in the spec's scenarios: pair `PURR/USDC` at listed
index 0; token `PURR` with `szDecimals=0`, token `USDC` with `weiDecimals=8`. -/
def metaPU : SpotMeta :=
  { «universe» := [⟨"PURR/USDC", 0⟩], tokens := [⟨"PURR", 0, 5⟩, ⟨"USDC", 8, 8⟩] }

def envPU : Env := ⟨"PURR/USDC", "PURR", "USDC"⟩

lemma tdPURR : token_decimals metaPU "PURR" = .ok (0, 5) := by
  simp [token_decimals, tokenDecAux, metaPU]

lemma tdUSDC : token_decimals metaPU "USDC" = .ok (8, 8) := by
  simp [token_decimals, tokenDecAux, metaPU]

lemma fpPU : find_pair_asset_id metaPU "PURR/USDC" = .ok 10000 := by
  simp [find_pair_asset_id, findPairAux, metaPU]

lemma quantizeRD_zero (e : ℕ) : quantizeRD 0 e = 0 := by
  simp [quantizeRD, pyInt]

/-- The value the code's transfer quantization produces on the spec's scenario
(free balance `50.00000003`, `weiDecimals = 8`): `50 - 8^-8`, i.e.
`49.999999940395355224609375`, exactly as the running script prints it. -/
lemma transfer_amount_scenario :
    transfer_amount (5000000003/100000000) 8
      = 49999999940395355224609375 / 1000000000000000000000000 := by
  norm_num [transfer_amount, quantize_with_margin, quantizeRD, pyFloorDiv, pyInt, tickExp]

lemma not_mult_scenario :
    ¬ isDecimalMultiple (49999999940395355224609375 / 1000000000000000000000000) 8 := by
  rintro ⟨k, hk⟩
  rw [div_eq_div_iff (by norm_num) (by norm_num)] at hk
  have hk2 : (49999999940395355224609375 : ℤ) * 10 ^ 8 = k * 10 ^ 24 := by
    exact_mod_cast hk
  omega

/-! ## Claim theorems -/

/-- C1: the claim states `round_size` floors to an exact multiple of
`10^-sizeDecimals`, is `0` iff `x < 10^-sizeDecimals`.  The code instead uses
the step `Decimal(8) ** (-sz_decimals)`, a power of 8: at `x = 0.1`,
`sizeDecimals = 1` the code returns `0` although `0.1` is not below `10^-1`;
at `x = 0.2` it returns `0.125`, which is not a multiple of `10^-1`. -/
theorem round_size_uses_base8_step :
    round_size (1/10) 1 = 0 ∧ round_size (2/10) 1 = 1/8 ∧
      ¬ isDecimalMultiple (round_size (2/10) 1) 1 := by
  have h2 : round_size (2/10) 1 = 1/8 := by
    norm_num [round_size, pyFloorDiv, pyInt]
  refine ⟨?_, h2, ?_⟩
  · norm_num [round_size, pyFloorDiv, pyInt]
  · rw [h2]
    rintro ⟨k, hk⟩
    rw [div_eq_div_iff (by norm_num) (by norm_num)] at hk
    have hk2 : (1 : ℤ) * 10 ^ 1 = k * 8 := by exact_mod_cast hk
    omega

/-- C2: the claim states the transfer quantization equals
`max(0, quantizeSize(x, d) - 10^-d)` with decimal flooring.  At `x = 1`,
`weiDecimals = 1` that prescribes `max(0, 1 - 0.1) = 0.9`; the code uses the
tick `8^-1 = 0.125` and produces `0.875`. -/
theorem quantize_with_margin_uses_base8_tick :
    quantize_with_margin 1 1 = 7/8 ∧ quantize_with_margin 1 1 ≠ max 0 (1 - 1/10) := by
  constructor
  · norm_num [quantize_with_margin, pyFloorDiv, pyInt]
  · norm_num [quantize_with_margin, pyFloorDiv, pyInt]

/-- C3: the claim's invariant — every amount submitted to the Signing Gateway
is an exact multiple of `10^-d` for the applicable decimal bound — fails on the
transfer path: in `transfer_only` mode with USDC (`weiDecimals = 8`) and free
balance `50.00000003`, the submitted transfer amount is
`49.999999940395355224609375` (tick `8^-8`), not a multiple of `10^-8`. -/
theorem submitted_transfer_violates_precision_bound :
    Event.submit_transfer (49999999940395355224609375 / 1000000000000000000000000)
        ∈ (runMain ⟨.transfer_only, none, none, none, 30⟩ envPU
            ⟨metaPU, [⟨"USDC", 5000000003/100000000, 0⟩], []⟩).1 ∧
      ¬ isDecimalMultiple (49999999940395355224609375 / 1000000000000000000000000) 8 := by
  constructor
  · have h : runMain ⟨.transfer_only, none, none, none, 30⟩ envPU
        ⟨metaPU, [⟨"USDC", 5000000003/100000000, 0⟩], []⟩
        = ([.fetch_meta, .fetch_balances "USDC",
            .submit_transfer (49999999940395355224609375 / 1000000000000000000000000)],
           .ok) := by
      norm_num [runMain, envPU, tdPURR, tdUSDC, fpPU, get_spot_balance,
        transfer_amount_scenario]
    rw [h]
    simp
  · exact not_mult_scenario

/-- C4: on the spec's scenario (quote `weiDecimals = 8`, free balance
`50.00000003` after the sell, transfer amount defaulting to all available) the
code does not submit `49.99999995`: its tick is `8^-8`, so it submits
`49.999999940395355224609375`. -/
theorem sell_and_transfer_scenario_amount :
    runMain ⟨.sell_and_transfer, none, none, none, 30⟩ envPU
        ⟨metaPU, [⟨"PURR", 100, 0⟩], [⟨"USDC", 5000000003/100000000, 0⟩]⟩
      = ([.fetch_meta, .fetch_balances "PURR",
          .submit_order "PURR/USDC" 100 30, .sleep_settle, .fetch_balances "USDC",
          .submit_transfer (49999999940395355224609375 / 1000000000000000000000000)],
         .ok) ∧
      (49999999940395355224609375 / 1000000000000000000000000 : ℚ)
        ≠ 4999999995 / 100000000 := by
  constructor
  · norm_num [runMain, envPU, tdPURR, tdUSDC, fpPU, get_spot_balance,
      round_size, pyInt, transfer_amount_scenario]
  · norm_num

/-- C5 counterexample: with withdraw mode selected and no destination supplied,
the run does terminate with the missing-destination `ConfigurationError` exit,
but the metadata fetch — a venue network call — has already been made: the
trace up to the failure is exactly `[fetch_meta]`, not empty as the claim
("before any network call is made, including the metadata fetch") requires. -/
theorem withdraw_missing_dest_meta_fetched :
    runMain ⟨.withdraw, none, some 1, none, 30⟩ envPU ⟨metaPU, [], []⟩
      = ([.fetch_meta], .exit "--dest is required for withdraw mode (Arbitrum address)") ∧
      Event.fetch_meta
        ∈ (runMain ⟨.withdraw, none, some 1, none, 30⟩ envPU ⟨metaPU, [], []⟩).1 := by
  have h : runMain ⟨.withdraw, none, some 1, none, 30⟩ envPU ⟨metaPU, [], []⟩
      = ([.fetch_meta], .exit "--dest is required for withdraw mode (Arbitrum address)") := by
    simp [runMain, envPU, tdPURR, tdUSDC, fpPU]
  exact ⟨h, by rw [h]; simp⟩

/-- C5 amended: when withdraw mode is selected, no destination is supplied and
metadata resolution succeeds, the run terminates with the missing-destination
`ConfigurationError` exit before any Signing-Gateway submission — the only
venue interaction that has happened is the metadata fetch. -/
theorem withdraw_missing_dest_stops_before_submission
    (args : Args) (env : Env) (venue : Venue) (p q : ℕ × ℕ) (i : ℕ)
    (hm : args.mode = .withdraw) (hd : args.dest = none)
    (h1 : token_decimals venue.meta env.base_token = .ok p)
    (h2 : token_decimals venue.meta env.quote_token = .ok q)
    (h3 : find_pair_asset_id venue.meta env.pair_name = .ok i) :
    runMain args env venue
      = ([.fetch_meta], .exit "--dest is required for withdraw mode (Arbitrum address)") := by
  obtain ⟨p1, p2⟩ := p
  obtain ⟨q1, q2⟩ := q
  simp [runMain, h1, h2, h3, hm, hd]

theorem withdraw_missing_dest_stops_before_submission_witness :
    runMain ⟨.withdraw, none, some 2, none, 30⟩ envPU ⟨metaPU, [], []⟩
      = ([.fetch_meta], .exit "--dest is required for withdraw mode (Arbitrum address)") :=
  withdraw_missing_dest_stops_before_submission _ _ _ (0, 5) (8, 8) 10000
    rfl rfl tdPURR tdUSDC fpPU

/-- C6: with `PURR` listed at `szDecimals = 0`, free balance `123.7` and no
explicit amount, the submitted sell size is `123` — the balance floored to an
integer — and the string the source builds for it (`str(int(sz))`,
src line 103) is exactly `"123"`. -/
theorem sell_size_integer_floor_scenario :
    Event.submit_order "PURR/USDC" 123 30
        ∈ (runMain ⟨.sell_and_transfer, none, none, none, 30⟩ envPU
            ⟨metaPU, [⟨"PURR", 1237/10, 0⟩], []⟩).1 ∧
      round_size (1237/10) 0 = 123 ∧ toString (pyInt (1237/10)) = "123" := by
  refine ⟨?_, ?_, ?_⟩
  · have h : runMain ⟨.sell_and_transfer, none, none, none, 30⟩ envPU
        ⟨metaPU, [⟨"PURR", 1237/10, 0⟩], []⟩
        = ([.fetch_meta, .fetch_balances "PURR",
            .submit_order "PURR/USDC" 123 30, .sleep_settle, .fetch_balances "USDC"],
           .exit "No USDC on Spot after sell (order may not have filled).") := by
      norm_num [runMain, envPU, tdPURR, tdUSDC, fpPU, get_spot_balance, round_size, pyInt]
    rw [h]
    simp
  · norm_num [round_size, pyInt]
  · have h : pyInt (1237/10) = 123 := by norm_num [pyInt]
    rw [h]
    rfl

/-- C7: `get_spot_balance` returns `total - hold` of the (first) balance record
whose `coin` matches the token, and exactly `0` — not an error — when the token
is absent from the response. -/
theorem get_spot_balance_absent_or_first (bs : List BalanceEntry) (token : String) :
    ((∀ b ∈ bs, b.coin ≠ token) → get_spot_balance bs token = 0) ∧
    (∀ b, bs.find? (fun x => x.coin == token) = some b →
        get_spot_balance bs token = b.total - b.hold) := by
  induction bs with
  | nil =>
      exact ⟨fun _ => rfl, fun b h => by simp at h⟩
  | cons a rest ih =>
      constructor
      · intro h
        have ha : a.coin ≠ token := h a (List.mem_cons_self a rest)
        simp only [get_spot_balance, if_neg ha]
        exact ih.1 fun b hb => h b (List.mem_cons_of_mem a hb)
      · intro b hf
        by_cases hc : a.coin = token
        · rw [List.find?_cons_of_pos _ (by simp [hc])] at hf
          cases hf
          simp only [get_spot_balance, if_pos hc]
        · rw [List.find?_cons_of_neg _ (by simp [hc])] at hf
          simp only [get_spot_balance, if_neg hc]
          exact ih.2 b hf

theorem get_spot_balance_absent_or_first_witness :
    get_spot_balance [⟨"AAA", 5, 2⟩] "BBB" = 0 ∧
      get_spot_balance [⟨"AAA", 5, 2⟩] "AAA" = 5 - 2 :=
  ⟨(get_spot_balance_absent_or_first [⟨"AAA", 5, 2⟩] "BBB").1 (by simp),
   (get_spot_balance_absent_or_first [⟨"AAA", 5, 2⟩] "AAA").2 ⟨"AAA", 5, 2⟩
     (by simp [List.find?])⟩

lemma findPairAux_spec (l : List UniverseEntry) (pair : String) :
    (∀ u, l.find? (fun x => x.name == pair) = some u →
        findPairAux l pair = .ok (10000 + u.index)) ∧
    ((∀ u ∈ l, u.name ≠ pair) →
        findPairAux l pair
          = .error ("Pair " ++ pair ++ " not found in spot meta 'universe'.")) := by
  induction l with
  | nil =>
      exact ⟨fun u h => by simp at h, fun _ => rfl⟩
  | cons a rest ih =>
      constructor
      · intro u hf
        by_cases hc : a.name = pair
        · rw [List.find?_cons_of_pos _ (by simp [hc])] at hf
          cases hf
          simp only [findPairAux, if_pos hc]
        · rw [List.find?_cons_of_neg _ (by simp [hc])] at hf
          simp only [findPairAux, if_neg hc]
          exact ih.1 u hf
      · intro h
        have ha : a.name ≠ pair := h a (List.mem_cons_self a rest)
        simp only [findPairAux, if_neg ha]
        exact ih.2 fun u hu => h u (List.mem_cons_of_mem a hu)

/-- C8: `find_pair_asset_id` returns `10000 + index` for the (first) universe
entry whose name matches the pair name exactly — `index` being the entry's
listed index field — and fails with the not-found `RuntimeError`, never a
default value, when no entry matches. -/
theorem find_pair_asset_id_first_or_notfound (meta : SpotMeta) (pair : String) :
    (∀ u, meta.«universe».find? (fun x => x.name == pair) = some u →
        find_pair_asset_id meta pair = .ok (10000 + u.index)) ∧
    ((∀ u ∈ meta.«universe», u.name ≠ pair) →
        find_pair_asset_id meta pair
          = .error ("Pair " ++ pair ++ " not found in spot meta 'universe'.")) :=
  findPairAux_spec meta.«universe» pair

theorem find_pair_asset_id_first_or_notfound_witness :
    find_pair_asset_id metaPU "PURR/USDC" = .ok (10000 + 0) ∧
      find_pair_asset_id metaPU "NOPE"
        = .error ("Pair " ++ "NOPE" ++ " not found in spot meta 'universe'.") :=
  ⟨(find_pair_asset_id_first_or_notfound metaPU "PURR/USDC").1 ⟨"PURR/USDC", 0⟩
     (by simp [metaPU, List.find?]),
   (find_pair_asset_id_first_or_notfound metaPU "NOPE").2 (by simp [metaPU])⟩

/-- C9: in sell_and_transfer mode, once the sell has been submitted, a
post-delay free quote-token balance ≤ 0 terminates the run with the
InsufficientBalance exit ("No USDC on Spot after sell") and no transfer is
ever submitted to the Signing Gateway. -/
theorem post_sell_insufficient_balance_no_transfer
    (args : Args) (env : Env) (venue : Venue) (sd b2 q1 wd i : ℕ)
    (hm : args.mode = .sell_and_transfer) (hpa : args.purr_amount = none)
    (h1 : token_decimals venue.meta env.base_token = .ok (sd, b2))
    (h2 : token_decimals venue.meta env.quote_token = .ok (q1, wd))
    (h3 : find_pair_asset_id venue.meta env.pair_name = .ok i)
    (hfree : 0 < get_spot_balance venue.balances1 env.base_token)
    (hsize : 0 < round_size (get_spot_balance venue.balances1 env.base_token) sd)
    (hpost : get_spot_balance venue.balances2 env.quote_token ≤ 0) :
    (runMain args env venue).2
        = .exit "No USDC on Spot after sell (order may not have filled)." ∧
      ∀ a, Event.submit_transfer a ∉ (runMain args env venue).1 := by
  constructor
  · simp [runMain, h1, h2, h3, hm, hpa, not_le.mpr hfree, not_le.mpr hsize, hpost]
  · intro a
    simp [runMain, h1, h2, h3, hm, hpa, not_le.mpr hfree, not_le.mpr hsize, hpost]

theorem post_sell_insufficient_balance_no_transfer_witness :
    (runMain ⟨.sell_and_transfer, none, none, none, 30⟩ envPU
        ⟨metaPU, [⟨"PURR", 1237/10, 0⟩], []⟩).2
        = .exit "No USDC on Spot after sell (order may not have filled)." ∧
      ∀ a, Event.submit_transfer a
          ∉ (runMain ⟨.sell_and_transfer, none, none, none, 30⟩ envPU
              ⟨metaPU, [⟨"PURR", 1237/10, 0⟩], []⟩).1 :=
  post_sell_insufficient_balance_no_transfer _ _ _ 0 5 8 8 10000 rfl rfl
    tdPURR tdUSDC fpPU
    (by norm_num [get_spot_balance, envPU])
    (by norm_num [get_spot_balance, round_size, pyInt, envPU])
    (by norm_num [get_spot_balance, envPU])

/-- C10: when the margin quantization reduces the transfer amount to zero (the
free quote balance is positive but below two ticks), both transfer-submitting
modes still submit a transfer of amount `0` to the Signing Gateway and finish
successfully; the NonActionableAmount guard exists only on the sell-size path. -/
theorem zero_amount_transfer_still_submitted :
    (∀ (args : Args) (env : Env) (venue : Venue) (sd b2 q1 wd i : ℕ),
      args.mode = .sell_and_transfer → args.purr_amount = none →
      args.usdc_amount = none →
      token_decimals venue.meta env.base_token = .ok (sd, b2) →
      token_decimals venue.meta env.quote_token = .ok (q1, wd) →
      find_pair_asset_id venue.meta env.pair_name = .ok i →
      0 < get_spot_balance venue.balances1 env.base_token →
      0 < round_size (get_spot_balance venue.balances1 env.base_token) sd →
      0 < get_spot_balance venue.balances2 env.quote_token →
      quantize_with_margin (get_spot_balance venue.balances2 env.quote_token) wd = 0 →
      Event.submit_transfer 0 ∈ (runMain args env venue).1 ∧
        (runMain args env venue).2 = .ok) ∧
    (∀ (args : Args) (env : Env) (venue : Venue) (sd b2 q1 wd i : ℕ),
      args.mode = .transfer_only → args.usdc_amount = none →
      token_decimals venue.meta env.base_token = .ok (sd, b2) →
      token_decimals venue.meta env.quote_token = .ok (q1, wd) →
      find_pair_asset_id venue.meta env.pair_name = .ok i →
      0 < get_spot_balance venue.balances1 env.quote_token →
      quantize_with_margin (get_spot_balance venue.balances1 env.quote_token) wd = 0 →
      Event.submit_transfer 0 ∈ (runMain args env venue).1 ∧
        (runMain args env venue).2 = .ok) := by
  constructor
  · intro args env venue sd b2 q1 wd i hm hpa hua h1 h2 h3 hfree hsize hpost hq
    have hta : transfer_amount (get_spot_balance venue.balances2 env.quote_token) wd
        = 0 := by
      rw [transfer_amount, hq, quantizeRD_zero]
    constructor
    · simp [runMain, h1, h2, h3, hm, hpa, hua, not_le.mpr hfree, not_le.mpr hsize,
        not_le.mpr hpost, hta]
    · simp [runMain, h1, h2, h3, hm, hpa, hua, not_le.mpr hfree, not_le.mpr hsize,
        not_le.mpr hpost, hta]
  · intro args env venue sd b2 q1 wd i hm hua h1 h2 h3 hfree hq
    have hta : transfer_amount (get_spot_balance venue.balances1 env.quote_token) wd
        = 0 := by
      rw [transfer_amount, hq, quantizeRD_zero]
    constructor
    · simp [runMain, h1, h2, h3, hm, hua, not_le.mpr hfree, hta]
    · simp [runMain, h1, h2, h3, hm, hua, not_le.mpr hfree, hta]

theorem zero_amount_transfer_still_submitted_witness :
    (Event.submit_transfer 0
        ∈ (runMain ⟨.sell_and_transfer, none, none, none, 30⟩ envPU
            ⟨metaPU, [⟨"PURR", 5, 0⟩], [⟨"USDC", 1/1000000000, 0⟩]⟩).1 ∧
      (runMain ⟨.sell_and_transfer, none, none, none, 30⟩ envPU
          ⟨metaPU, [⟨"PURR", 5, 0⟩], [⟨"USDC", 1/1000000000, 0⟩]⟩).2 = .ok) ∧
    (Event.submit_transfer 0
        ∈ (runMain ⟨.transfer_only, none, none, none, 30⟩ envPU
            ⟨metaPU, [⟨"USDC", 1/1000000000, 0⟩], []⟩).1 ∧
      (runMain ⟨.transfer_only, none, none, none, 30⟩ envPU
          ⟨metaPU, [⟨"USDC", 1/1000000000, 0⟩], []⟩).2 = .ok) :=
  ⟨zero_amount_transfer_still_submitted.1 _ _ _ 0 5 8 8 10000 rfl rfl rfl
      tdPURR tdUSDC fpPU
      (by norm_num [get_spot_balance, envPU])
      (by norm_num [get_spot_balance, round_size, pyInt, envPU])
      (by norm_num [get_spot_balance, envPU])
      (by norm_num [get_spot_balance, quantize_with_margin, pyFloorDiv, pyInt, envPU]),
   zero_amount_transfer_still_submitted.2 _ _ _ 0 5 8 8 10000 rfl rfl
      tdPURR tdUSDC fpPU
      (by norm_num [get_spot_balance, envPU])
      (by norm_num [get_spot_balance, quantize_with_margin, pyFloorDiv, pyInt, envPU])⟩

end HL
